import Mathlib

/-!
Shallow embedding of src/thurmbox/common_code.js.

Modelling conventions:
* JS strings are modelled as lists of characters (List Char); the helper
  str turns a Lean string literal into that representation.
* JS numbers are modelled as Option ℚ (JSNum): some q is a finite double,
  abstracted as an exact rational, and none stands for the non-finite
  values (NaN, and also Infinity where it could arise).  Arithmetic on
  JSNum propagates none the way NaN propagates in JS.
* Typed arrays (Float32Array) are modelled as List JSNum; out-of-range
  element writes are no-ops, matching typed-array stores.
-/

def str (s : String) : List Char := s.data

/-- JS numbers: some q is a finite double (abstracted as an exact rational),
none is NaN (or another non-finite value). -/
abbrev JSNum := Option ℚ

def jsAdd : JSNum → JSNum → JSNum
  | some a, some b => some (a + b)
  | _, _ => none

def jsSub : JSNum → JSNum → JSNum
  | some a, some b => some (a - b)
  | _, _ => none

/-- JS division; x / 0 is non-finite (NaN or ±Infinity), modelled as none. -/
def jsDiv : JSNum → JSNum → JSNum
  | some a, some b => if b = 0 then none else some (a / b)
  | _, _ => none

-- data.split("\n") on a JS string, modelled over the character list.
def splitOnNewline : List Char → List (List Char)
  | [] => [[]]
  | c :: rest =>
    if c = '\n' then [] :: splitOnNewline rest
    else
      match splitOnNewline rest with
      | [] => [[c]]
      | l :: ls => (c :: l) :: ls

-- JS ToNumber applied to a string (the unary + in parseTextSample).
-- The decimal-literal core of the conversion is embedded exactly
-- (whitespace trimming, empty string to 0, sign, digits, decimal point,
-- exponent); the remaining ToNumber cases that no claim exercises
-- (hex/octal/binary literals, "Infinity") are mapped to none alongside NaN.

def isJsWhitespace (c : Char) : Bool :=
  c = ' ' || c = '\t' || c = '\n' || c = '\r' || c = '\x0b' || c = '\x0c'

def trimJs (s : List Char) : List Char :=
  ((s.dropWhile isJsWhitespace).reverse.dropWhile isJsWhitespace).reverse

def digitsToNat (s : List Char) : ℕ :=
  s.foldl (fun acc c => 10 * acc + (c.toNat - 48)) 0

def splitOnceP (p : Char → Bool) : List Char → Option (List Char × List Char)
  | [] => none
  | c :: rest =>
    if p c then some ([], rest)
    else (splitOnceP p rest).map (fun q => (c :: q.1, q.2))

def parseDecMantissa (s : List Char) : Option ℚ :=
  match splitOnceP (fun c => c = '.') s with
  | none =>
    if s ≠ [] ∧ s.all Char.isDigit then some (digitsToNat s) else none
  | some (ip, fp) =>
    if (ip ≠ [] ∨ fp ≠ []) ∧ ip.all Char.isDigit ∧ fp.all Char.isDigit then
      some ((digitsToNat ip : ℚ) + (digitsToNat fp : ℚ) / 10 ^ fp.length)
    else none

def parseExponentJs (s : List Char) : Option ℤ :=
  match s with
  | '+' :: r => if r ≠ [] ∧ r.all Char.isDigit then some (digitsToNat r) else none
  | '-' :: r => if r ≠ [] ∧ r.all Char.isDigit then some (-(digitsToNat r : ℤ)) else none
  | r => if r ≠ [] ∧ r.all Char.isDigit then some (digitsToNat r) else none

def parseUnsignedJs (s : List Char) : Option ℚ :=
  if s = str "Infinity" then none
  else
    match splitOnceP (fun c => c = 'e' || c = 'E') s with
    | none => parseDecMantissa s
    | some (m, e) =>
      match parseDecMantissa m, parseExponentJs e with
      | some mv, some ev => some (mv * (10 : ℚ) ^ ev)
      | _, _ => none

def jsStringToNumber (s : List Char) : JSNum :=
  let t := trimJs s
  match t with
  | [] => some 0
  | '+' :: r => parseUnsignedJs r
  | '-' :: r => (parseUnsignedJs r).map Neg.neg
  | _ => parseUnsignedJs t

-- function makeArrayOfSameType(a, length): in the load pipeline a is always
-- a Float32Array (from parseTextSample or getChannelData), so the embedding
-- takes the typed-array branch: a zero-filled array of the requested length
-- (the argument defaulting to a.length when absent, modelled as none).
def makeArrayOfSameType (a : List JSNum) (length : Option ℕ) : List JSNum :=
  List.replicate (length.getD a.length) (some 0)

-- The for-loop of computeCenteredWave: result[i] = wave[i] - average for
-- each index i drawn from the loop's index sequence, in order.
def centerLoop (wave : List JSNum) (average : JSNum) :
    List ℕ → List JSNum → List JSNum
  | [], result => result
  | i :: rest, result =>
    centerLoop wave average rest (result.set i (jsSub (wave.getD i none) average))

def computeCenteredWave (wave result : List JSNum) : List JSNum :=
  let sum := wave.foldl jsAdd (some 0)
  let average := jsDiv sum (some (wave.length : ℚ))
  centerLoop wave average (List.range wave.length) result

-- The for-loop of computeIntegral: result[i] = cumulative; cumulative += wave[i].
def integralLoop (wave : List JSNum) :
    List ℕ → JSNum → List JSNum → List JSNum
  | [], _, result => result
  | i :: rest, cumulative, result =>
    integralLoop wave rest (jsAdd cumulative (wave.getD i none)) (result.set i cumulative)

def computeIntegral (wave result : List JSNum) : List JSNum :=
  integralLoop wave (List.range wave.length) (some 0) result

def parseTextSample (data : List Char) : List JSNum :=
  let lines := splitOnNewline data
  let waveLength := lines.length
  let parsed := lines.map jsStringToNumber
  computeCenteredWave parsed (makeArrayOfSameType parsed (some (waveLength + 1)))

-- The guarded close of the sample-loader AudioContext:
--   if (!closedSampleLoaderAudioContext) {
--       closedSampleLoaderAudioContext = true;
--       sampleLoaderAudioContext.close();
--   }
-- State is (closed flag, number of close() calls so far).
def closeGuarded : Bool × ℕ → Bool × ℕ
  | (closed, closeCount) =>
    if !closed then (true, closeCount + 1) else (closed, closeCount)

-- parseSampleWithWebAudio: decodeResult is the outcome of
-- decodeAudioData (some leftChannelSamples on success, none on failure).
-- Returns the value the promise resolves with, paired with the number of
-- times the AudioContext was closed.  On failure the catch handler closes
-- the context and returns undefined (modelled as none), so the promise
-- RESOLVES with undefined rather than rejecting.
def parseSampleWithWebAudio (decodeResult : Option (List JSNum)) :
    Option (List JSNum) × ℕ :=
  let state0 : Bool × ℕ := (false, 0)
  match decodeResult with
  | some leftChannelSamples =>
    let rawSamples := computeCenteredWave leftChannelSamples
      (makeArrayOfSameType leftChannelSamples (some (leftChannelSamples.length + 1)))
    let state1 := closeGuarded state0
    (some rawSamples, state1.2)
  | none =>
    let state1 := closeGuarded state0
    (none, state1.2)

-- A load target (an object in Config.chipWaves / Config.rawChipWaves).
-- samples is the JS value of the .samples field; none models the JS
-- undefined value (which the code can assign on a decode failure).
structure SampleTarget where
  samples : Option (List JSNum)
deriving DecidableEq, Repr

-- startLoadingSampleData's promise chain, as a function of the external
-- outcomes: whether the fetch produced a success response (fetchOk), the
-- text body for the "txt" format, and the decodeAudioData outcome for the
-- generic format.  Returns the post-call raw target, the post-call
-- integral target, and the number of console.error diagnostics produced.
--
-- The none branch of the final handler embeds the exceptional control
-- flow observed in the source when parseSampleWithWebAudio resolves with
-- undefined: chipWaveRaw.samples is assigned undefined first, and then
-- makeArrayOfSameType(parsed) throws a TypeError reading parsed.length,
-- which skips the integral assignment and lands in the .catch logger.
def startLoadingSampleData (format : List Char) (fetchOk : Bool)
    (txtBody : List Char) (decodeResult : Option (List JSNum))
    (chipWaveRaw chipWaveIntegral : Option SampleTarget) :
    Option SampleTarget × Option SampleTarget × ℕ :=
  if fetchOk = false then
    -- Promise.reject(new Error(...)) falls through to .catch(console.error)
    (chipWaveRaw, chipWaveIntegral, 1)
  else
    let parsed : Option (List JSNum) :=
      if format = str "txt" then some (parseTextSample txtBody)
      else (parseSampleWithWebAudio decodeResult).1
    match parsed with
    | some p =>
      let raw1 := match chipWaveRaw with
        | some _ => some (SampleTarget.mk (some p))
        | none => none
      let integral1 := match chipWaveIntegral with
        | some _ => some (SampleTarget.mk
            (some (computeIntegral p (makeArrayOfSameType p none))))
        | none => none
      (raw1, integral1, 0)
    | none =>
      let raw1 := match chipWaveRaw with
        | some _ => some (SampleTarget.mk none)  -- chipWaveRaw.samples = undefined
        | none => none
      match chipWaveIntegral with
      | some t => (raw1, some t, 1)  -- TypeError thrown, caught and logged once
      | none => (raw1, none, 0)      -- handler completes, nothing logged

-- Sample Locator ------------------------------------------------------------

-- encodeURIComponent: unreserved characters pass through, everything else
-- is percent-encoded as the uppercase-hex UTF-8 bytes of the character.
def isUnreservedUri (c : Char) : Bool :=
  ('A' ≤ c && c ≤ 'Z') || ('a' ≤ c && c ≤ 'z') || ('0' ≤ c && c ≤ '9') ||
    c = '-' || c = '_' || c = '.' || c = '!' || c = '~' || c = '*' ||
    c = Char.ofNat 39 || c = '(' || c = ')'

def hexDigitUpper (n : ℕ) : Char :=
  if n < 10 then Char.ofNat (48 + n) else Char.ofNat (55 + n)

def utf8Bytes (c : Char) : List ℕ :=
  let n := c.toNat
  if n < 128 then [n]
  else if n < 2048 then [192 + n / 64, 128 + n % 64]
  else if n < 65536 then [224 + n / 4096, 128 + n / 64 % 64, 128 + n % 64]
  else [240 + n / 262144, 128 + n / 4096 % 64, 128 + n / 64 % 64, 128 + n % 64]

def percentEncodeChar (c : Char) : List Char :=
  if isUnreservedUri c then [c]
  else ((utf8Bytes c).map (fun b => ['%', hexDigitUpper (b / 16), hexDigitUpper (b % 16)])).flatten

def encodeURIComponent (s : List Char) : List Char :=
  (s.map percentEncodeChar).flatten

-- A folder-mapping pattern /^[...]/i: the raw name matches when its first
-- character, lowercased, is in the (lowercase) character class.
def nameMatches (cls : List Char) (name : List Char) : Bool :=
  match name with
  | [] => false
  | c :: _ => cls.contains c.toLower

-- DEFAULT_FOLDER_MAPPINGS: folder name paired with the character class of
-- its /^[class]/i matcher.
def DEFAULT_FOLDER_MAPPINGS : List (List Char × List Char) :=
  [ (str "0-9%20and%20A/", str "0123456789a"),
    (str "B/", str "b"),
    (str "CD/", str "cd"),
    (str "EF/", str "ef"),
    (str "GH/", str "gh"),
    (str "IJKL/", str "ijkl"),
    (str "M/", str "m"),
    (str "NO/", str "no"),
    (str "P/", str "p"),
    (str "QR/", str "qr"),
    (str "S/", str "s"),
    (str "TUV/", str "tuv"),
    (str "WXYZ/", str "wxyz") ]

-- Embeds DEFAULT_SAMPLE_URL_PREFIX / DEFAULT_SAMPLE_URL_SUFFIX.
def DEFAULT_SAMPLE_URL_PRE : List Char :=
  str "https://file.garden/ZMQ0Om5nmTe-x2hq/PandoraArchive%20Samples/"

def DEFAULT_SAMPLE_URL_SUF : List Char := str ".wav"

def DEFAULT_SAMPLE_FORMAT : List Char := str "wav"

-- SAMPLE_URL_TABLE: empty in the source (only a commented-out example).
def SAMPLE_URL_TABLE : List (List Char × (List Char × List Char)) := []

-- Map.get on a name -> (url, format) table (JS Map: exact key equality).
def lookupTable (table : List (List Char × (List Char × List Char)))
    (name : List Char) : Option (List Char × List Char) :=
  (table.find? (fun e => e.1 = name)).map (fun e => e.2)

-- The configuration globals of the script, gathered into one value so the
-- locator's behavior can be stated for any table contents; defaultConfig
-- below is the exact configuration of the source.
structure SampleUrlConfig where
  urlPre : List Char
  urlSuf : List Char
  fmt : List Char
  folderMappings : List (List Char × List Char)
  urlTable : List (List Char × (List Char × List Char))

def defaultConfig : SampleUrlConfig :=
  { urlPre := DEFAULT_SAMPLE_URL_PRE
    urlSuf := DEFAULT_SAMPLE_URL_SUF
    fmt := DEFAULT_SAMPLE_FORMAT
    folderMappings := DEFAULT_FOLDER_MAPPINGS
    urlTable := SAMPLE_URL_TABLE }

-- The for-of loop over DEFAULT_FOLDER_MAPPINGS.entries() with break.
def folderLoop : List (List Char × List Char) → List Char → List Char
  | [], _ => []
  | (possibleFolderName, nameMatcher) :: rest, name =>
    if nameMatches nameMatcher name then possibleFolderName
    else folderLoop rest name

-- getSampleDefinitionFromName.  When the table has an entry, url is the
-- entry's url string, which is never null, so the `if (url == null)`
-- default branch is not taken.
def getSampleDefinitionFromName (cfg : SampleUrlConfig) (name : List Char) :
    List Char × List Char :=
  match lookupTable cfg.urlTable name with
  | some tableEntry => (tableEntry.1, tableEntry.2)
  | none =>
    let percentEncodedName := encodeURIComponent name
    let folderName := folderLoop cfg.folderMappings name
    (cfg.urlPre ++ folderName ++ percentEncodedName ++ cfg.urlSuf, cfg.fmt)

-- Spec-side restatement of the folder choice: the folder prefix of the
-- first folder-mapping entry whose pattern matches, or "" if none does.
def folderSpec (mappings : List (List Char × List Char)) (name : List Char) :
    List Char :=
  ((mappings.find? (fun p => nameMatches p.2 name)).map Prod.fst).getD []

-- Storage shim ---------------------------------------------------------------

-- convertToString: value + "" is the identity on strings (the claims only
-- quantify over string keys and values).
def convertToString (value : List Char) : List Char := value

-- JS Map, modelled as an insertion-ordered association list.
def mapSet : List (List Char × List Char) → List Char → List Char →
    List (List Char × List Char)
  | [], k, v => [(k, v)]
  | (k0, v0) :: rest, k, v =>
    if k0 = k then (k, v) :: rest else (k0, v0) :: mapSet rest k v

def mapGet (m : List (List Char × List Char)) (k : List Char) :
    Option (List Char) :=
  (m.find? (fun e => e.1 = k)).map (fun e => e.2)

def mapDelete : List (List Char × List Char) → List Char →
    List (List Char × List Char)
  | [], _ => []
  | (k0, v0) :: rest, k =>
    if k0 = k then rest else (k0, v0) :: mapDelete rest k

-- FakeLocalStorage state: the in-memory mirror plus the IndexedDB handle
-- (none when opening the database failed and the shim runs memory-only).
-- The asynchronous write-through helpers (_setItemAsync and friends) only
-- touch the external database, never _inMemoryData, and when _database is
-- null they return undefined without doing anything; so they do not appear
-- in the state transitions below.
structure FakeLocalStorage where
  _inMemoryData : List (List Char × List Char)
  _database : Option Unit
deriving DecidableEq, Repr

def FakeLocalStorage._getItemInMemory (s : FakeLocalStorage) (key : List Char) :
    Option (List Char) :=
  mapGet s._inMemoryData (convertToString key)

def FakeLocalStorage._setItemInMemory (s : FakeLocalStorage)
    (key value : List Char) : FakeLocalStorage :=
  { s with _inMemoryData :=
      mapSet s._inMemoryData (convertToString key) (convertToString value) }

def FakeLocalStorage._removeItemInMemory (s : FakeLocalStorage)
    (key : List Char) : FakeLocalStorage :=
  { s with _inMemoryData := mapDelete s._inMemoryData (convertToString key) }

def FakeLocalStorage._clearInMemory (s : FakeLocalStorage) : FakeLocalStorage :=
  { s with _inMemoryData := [] }

-- getItem returns null (none) when the key is absent; it reads only the
-- in-memory mirror, synchronously.
def FakeLocalStorage.getItem (s : FakeLocalStorage) (key : List Char) :
    Option (List Char) :=
  s._getItemInMemory key

def FakeLocalStorage.setItem (s : FakeLocalStorage) (key value : List Char) :
    FakeLocalStorage :=
  s._setItemInMemory key value

def FakeLocalStorage.removeItem (s : FakeLocalStorage) (key : List Char) :
    FakeLocalStorage :=
  s._removeItemInMemory key

def FakeLocalStorage.clear (s : FakeLocalStorage) : FakeLocalStorage :=
  s._clearInMemory

-- _initialize, as a function of whether indexedDB.open succeeds and of the
-- previously persisted entries (loaded via _loadAllPreviouslyStoredData,
-- which stores each cursor entry with _setItemInMemory).  On open failure
-- the error handler logs and resolves with _database still null.
def FakeLocalStorage.startup (openOk : Bool)
    (persisted : List (List Char × List Char)) : FakeLocalStorage :=
  let s0 : FakeLocalStorage := { _inMemoryData := [], _database := none }
  if openOk then
    persisted.foldl (fun s e => s._setItemInMemory e.1 e.2)
      { s0 with _database := some () }
  else s0

-- Spec-side helper: the sequence of running prefix sums of a wave, starting
-- from accumulator c (so the entry at index i is c + wave[0] + ... + wave[i-1]).
def jsPrefixSums (c : JSNum) : List JSNum → List JSNum
  | [] => []
  | x :: xs => c :: jsPrefixSums (jsAdd c x) xs

-- Theorems -------------------------------------------------------------------

theorem jsPrefixSums_length (c : JSNum) (l : List JSNum) :
    (jsPrefixSums c l).length = l.length := by
  induction l generalizing c with
  | nil => rfl
  | cons x xs ih => simp [jsPrefixSums, ih]

theorem centerLoop_range' (w : List JSNum) (a : JSNum) (n : ℕ) :
    ∀ (i : ℕ) (r : List JSNum), i + n ≤ r.length → i + n ≤ w.length →
      centerLoop w a (List.range' i n) r =
        r.take i ++ ((w.drop i).take n).map (fun x => jsSub x a) ++ r.drop (i + n) := by
  induction n with
  | zero =>
    intro i r hr hw
    simp [centerLoop, List.take_append_drop]
  | succ n ih =>
    intro i r hr hw
    have hi_r : i < r.length := by omega
    have hi_w : i < w.length := by omega
    rw [List.range'_succ]
    show centerLoop w a (List.range' (i + 1) n)
        (r.set i (jsSub (w.getD i none) a)) = _
    rw [ih (i + 1) _ (by simp; omega) (by omega)]
    rw [List.set_eq_take_cons_drop _ hi_r]
    have hlen : (r.take i).length = i := by simp; omega
    have h1 : (r.take i ++ jsSub (w.getD i none) a :: r.drop (i + 1)).take (i + 1)
        = r.take i ++ [jsSub (w.getD i none) a] := by
      rw [show i + 1 = (r.take i).length + 1 by omega, List.take_append]
      simp
    have h2 : (r.take i ++ jsSub (w.getD i none) a :: r.drop (i + 1)).drop (i + 1 + n)
        = r.drop (i + 1 + n) := by
      rw [show i + 1 + n = (r.take i).length + (1 + n) by omega, List.drop_append,
        show 1 + n = n + 1 by omega, List.drop_succ_cons, List.drop_drop, hlen]
      congr 1
      omega
    rw [h1, h2]
    rw [List.drop_eq_getElem_cons hi_w, List.take_succ_cons, List.map_cons]
    rw [show w.getD i none = w[i] by
      simp [List.getD_eq_getElem?_getD, List.getElem?_eq_getElem hi_w]]
    rw [show i + (n + 1) = i + 1 + n by omega]
    simp [List.append_assoc]

theorem integralLoop_range' (w : List JSNum) (n : ℕ) :
    ∀ (i : ℕ) (c : JSNum) (r : List JSNum), i + n ≤ r.length → i + n ≤ w.length →
      integralLoop w (List.range' i n) c r =
        r.take i ++ jsPrefixSums c ((w.drop i).take n) ++ r.drop (i + n) := by
  induction n with
  | zero =>
    intro i c r hr hw
    simp [integralLoop, jsPrefixSums, List.take_append_drop]
  | succ n ih =>
    intro i c r hr hw
    have hi_r : i < r.length := by omega
    have hi_w : i < w.length := by omega
    rw [List.range'_succ]
    show integralLoop w (List.range' (i + 1) n) (jsAdd c (w.getD i none)) (r.set i c) = _
    rw [ih (i + 1) _ _ (by simp; omega) (by omega)]
    rw [List.set_eq_take_cons_drop _ hi_r]
    have hlen : (r.take i).length = i := by simp; omega
    have h1 : (r.take i ++ c :: r.drop (i + 1)).take (i + 1)
        = r.take i ++ [c] := by
      rw [show i + 1 = (r.take i).length + 1 by omega, List.take_append]
      simp
    have h2 : (r.take i ++ c :: r.drop (i + 1)).drop (i + 1 + n)
        = r.drop (i + 1 + n) := by
      rw [show i + 1 + n = (r.take i).length + (1 + n) by omega, List.drop_append,
        show 1 + n = n + 1 by omega, List.drop_succ_cons, List.drop_drop, hlen]
      congr 1
      omega
    rw [h1, h2]
    rw [List.drop_eq_getElem_cons hi_w, List.take_succ_cons]
    rw [show w.getD i none = w[i] by
      simp [List.getD_eq_getElem?_getD, List.getElem?_eq_getElem hi_w]]
    rw [show i + (n + 1) = i + 1 + n by omega]
    simp [jsPrefixSums, List.append_assoc]

-- The two post-processing functions, in closed form, for a result buffer at
-- least as long as the wave (always the case in the load pipeline).

theorem computeCenteredWave_eq (wave result : List JSNum)
    (h : wave.length ≤ result.length) :
    computeCenteredWave wave result =
      wave.map (fun x =>
        jsSub x (jsDiv (wave.foldl jsAdd (some 0)) (some (wave.length : ℚ))))
        ++ result.drop wave.length := by
  show centerLoop wave _ (List.range wave.length) result = _
  rw [List.range_eq_range', centerLoop_range' _ _ _ 0 result (by omega) (by omega)]
  simp

theorem computeIntegral_eq (wave result : List JSNum)
    (h : wave.length ≤ result.length) :
    computeIntegral wave result =
      jsPrefixSums (some 0) wave ++ result.drop wave.length := by
  show integralLoop wave (List.range wave.length) (some 0) result = _
  rw [List.range_eq_range', integralLoop_range' _ _ 0 _ result (by omega) (by omega)]
  simp

-- parseTextSample in closed form: the mean-centered line values followed by
-- the one zero-initialized reserved slot of the (lines+1)-long output buffer.
theorem parseTextSample_eq (data : List Char) :
    parseTextSample data =
      ((splitOnNewline data).map jsStringToNumber).map
        (fun x => jsSub x
          (jsDiv (((splitOnNewline data).map jsStringToNumber).foldl jsAdd (some 0))
            (some (((splitOnNewline data).map jsStringToNumber).length : ℚ))))
        ++ [some 0] := by
  show computeCenteredWave ((splitOnNewline data).map jsStringToNumber)
      (makeArrayOfSameType ((splitOnNewline data).map jsStringToNumber)
        (some ((splitOnNewline data).length + 1))) = _
  rw [computeCenteredWave_eq _ _ (by simp [makeArrayOfSameType])]
  congr 1
  simp [makeArrayOfSameType, List.drop_replicate]

theorem foldl_add_eq (vs : List ℚ) : ∀ a : ℚ, vs.foldl (· + ·) a = a + vs.sum := by
  induction vs with
  | nil => intro a; simp
  | cons v vs ih => intro a; simp [ih]; ring

theorem foldl_jsAdd_some (vs : List ℚ) : ∀ a : ℚ,
    (vs.map some).foldl jsAdd (some a) = some (vs.foldl (· + ·) a) := by
  induction vs with
  | nil => intro a; rfl
  | cons v vs ih => intro a; simp [jsAdd, ih]

theorem sum_map_sub_const (vs : List ℚ) (m : ℚ) :
    (vs.map (fun v => v - m)).sum = vs.sum - vs.length * m := by
  induction vs with
  | nil => simp
  | cons v vs ih => simp [ih]; ring

theorem eq_map_some (l : List JSNum) (h : none ∉ l) :
    l = (l.map (fun x => x.getD 0)).map some := by
  induction l with
  | nil => rfl
  | cons x xs ih =>
    simp only [List.mem_cons, not_or] at h
    obtain ⟨hx, hxs⟩ := h
    cases x with
    | none => exact absurd rfl hx
    | some v =>
      simp only [List.map_cons, Option.getD_some]
      exact congrArg (List.cons (some v)) (ih hxs)

theorem jsPrefixSums_getElem? (l : List JSNum) : ∀ (c : JSNum) (i : ℕ),
    i < l.length → (jsPrefixSums c l)[i]? = some ((l.take i).foldl jsAdd c) := by
  induction l with
  | nil => intro c i h; simp at h
  | cons x xs ih =>
    intro c i h
    cases i with
    | zero => simp [jsPrefixSums]
    | succ i =>
      simp only [jsPrefixSums, List.getElem?_cons_succ, List.take_succ_cons,
        List.foldl_cons]
      exact ih (jsAdd c x) i (by simpa using h)

theorem splitOnNewline_ne_nil (s : List Char) : splitOnNewline s ≠ [] := by
  cases s with
  | nil => simp [splitOnNewline]
  | cons c rest =>
    simp only [splitOnNewline]
    by_cases hc : c = '\n'
    · simp [hc]
    · simp only [hc, if_false]
      cases splitOnNewline rest <;> simp

theorem splitOnNewline_append_newline (s : List Char) :
    splitOnNewline (s ++ ['\n']) = splitOnNewline s ++ [[]] := by
  induction s with
  | nil => rfl
  | cons c rest ih =>
    by_cases hc : c = '\n'
    · simp only [List.cons_append, splitOnNewline, hc, if_pos rfl, if_true, List.append_eq]
      rw [ih]
    · simp only [List.cons_append, splitOnNewline, hc, if_false, List.append_eq]
      rw [ih]
      rcases h : splitOnNewline rest with _ | ⟨l, ls⟩
      · exact absurd h (splitOnNewline_ne_nil rest)
      · rfl

theorem folderLoop_eq_folderSpec (name : List Char) :
    ∀ mappings : List (List Char × List Char),
      folderLoop mappings name = folderSpec mappings name := by
  intro mappings
  induction mappings with
  | nil => rfl
  | cons p rest ih =>
    obtain ⟨folder, matcher⟩ := p
    by_cases hm : nameMatches matcher name
    · simp [folderLoop, folderSpec, List.find?, hm]
    · simp [folderLoop, folderSpec, List.find?, hm, ih]

theorem mapGet_mapSet_self (m : List (List Char × List Char)) (k v : List Char) :
    mapGet (mapSet m k v) k = some v := by
  induction m with
  | nil => simp [mapSet, mapGet, List.find?]
  | cons e rest ih =>
    obtain ⟨k0, v0⟩ := e
    simp only [mapSet]
    by_cases hk : k0 = k
    · simp [mapGet, List.find?, hk]
    · rw [if_neg hk]
      simpa [mapGet, List.find?, hk] using ih

/-- C6: for every non-empty waveform wave and output buffer of length at
least wave.length, computeCenteredWave writes wave[i] - mean(wave) at every
index i < wave.length, leaves the extra trailing slots of the buffer
untouched (so a zero-initialized slot keeps its default), the output length
is at least wave.length (it equals the buffer length), and the written
portion sums to exactly 0 whenever the wave has no NaN entry. -/
theorem C6_computeCenteredWave_spec (wave result : List JSNum)
    (h1 : wave ≠ []) (h2 : wave.length ≤ result.length) :
    (computeCenteredWave wave result).length = result.length
    ∧ wave.length ≤ (computeCenteredWave wave result).length
    ∧ (∀ i, i < wave.length →
        (computeCenteredWave wave result).getD i none
          = jsSub (wave.getD i none)
              (jsDiv (wave.foldl jsAdd (some 0)) (some (wave.length : ℚ))))
    ∧ (computeCenteredWave wave result).drop wave.length = result.drop wave.length
    ∧ (none ∉ wave →
        ((computeCenteredWave wave result).take wave.length).foldl jsAdd (some 0)
          = some 0) := by
  have E := computeCenteredWave_eq wave result h2
  have hmap : (wave.map (fun x =>
      jsSub x (jsDiv (wave.foldl jsAdd (some 0)) (some (wave.length : ℚ))))).length
      = wave.length := by simp
  refine ⟨?_, ?_, ?_, ?_, ?_⟩
  · rw [E]
    simp
    omega
  · rw [E]
    simp
  · intro i hi
    rw [E, List.getD_eq_getElem?_getD,
      List.getElem?_append_left (by rw [hmap]; exact hi), List.getElem?_map,
      List.getElem?_eq_getElem hi]
    simp [List.getD_eq_getElem?_getD, List.getElem?_eq_getElem hi]
  · rw [E, List.drop_left' hmap]
  · intro h3
    obtain ⟨vs, hvs⟩ : ∃ vs : List ℚ, wave = vs.map some :=
      ⟨wave.map (fun x => x.getD 0), eq_map_some wave h3⟩
    subst hvs
    rw [E, List.take_left' hmap]
    have hne : vs ≠ [] := by
      intro h
      rw [h] at h1
      exact h1 rfl
    have hlen0 : ((vs.map some).length : ℚ) ≠ 0 := by
      simp only [List.length_map, Nat.cast_ne_zero]
      intro h
      exact hne (List.length_eq_zero.mp h)
    have havg : jsDiv ((vs.map some).foldl jsAdd (some 0))
        (some (((vs.map some).length : ℕ) : ℚ)) = some (vs.sum / (vs.length : ℚ)) := by
      rw [foldl_jsAdd_some, foldl_add_eq]
      simp [jsDiv, hlen0]
      exact hne
    rw [havg]
    have hform : (vs.map some).map (fun x => jsSub x (some (vs.sum / (vs.length : ℚ))))
        = (vs.map (fun v => v - vs.sum / (vs.length : ℚ))).map some := by
      rw [List.map_map, List.map_map]
      exact List.map_congr_left (fun v _ => by simp [jsSub])
    rw [hform, foldl_jsAdd_some, foldl_add_eq, sum_map_sub_const]
    have : (vs.length : ℚ) * (vs.sum / (vs.length : ℚ)) = vs.sum := by
      rw [mul_div_cancel₀]
      simpa using hlen0
    rw [this]
    simp

/-- Witness for C6: the wave [1, -1] with a zero-initialized buffer of
length 3 (one extra slot) satisfies the hypotheses and the conclusions. -/
theorem C6_witness :
    (computeCenteredWave [some 1, some (-1)] [some 0, some 0, some 0]).length
        = ([some 0, some 0, some 0] : List JSNum).length
    ∧ (computeCenteredWave [some 1, some (-1)] [some 0, some 0, some 0]).getD 0 none
        = jsSub (([some 1, some (-1)] : List JSNum).getD 0 none)
            (jsDiv (([some 1, some (-1)] : List JSNum).foldl jsAdd (some 0))
              (some ((([some 1, some (-1)] : List JSNum).length : ℕ) : ℚ)))
    ∧ (computeCenteredWave [some 1, some (-1)] [some 0, some 0, some 0]).drop
          ([some 1, some (-1)] : List JSNum).length
        = ([some 0, some 0, some 0] : List JSNum).drop
            ([some 1, some (-1)] : List JSNum).length
    ∧ ((computeCenteredWave [some 1, some (-1)] [some 0, some 0, some 0]).take
          ([some 1, some (-1)] : List JSNum).length).foldl jsAdd (some 0)
        = some 0 := by
  have h := C6_computeCenteredWave_spec [some 1, some (-1)] [some 0, some 0, some 0]
    (by decide) (by decide)
  exact ⟨h.1, h.2.2.1 0 (by decide), h.2.2.2.1, h.2.2.2.2 (by decide)⟩

/-- C7: computeIntegral satisfies integral[0] = 0 and the recurrence
integral[i] = integral[i-1] + wave[i-1] for 0 < i < wave.length, and its
output length equals the input length; in particular the integral buffer
allocated in the pipeline (makeArrayOfSameType with default length) makes
the integral exactly as long as the wave it is computed from. -/
theorem C7_computeIntegral_spec (wave result : List JSNum)
    (h : result.length = wave.length) :
    (computeIntegral wave result).length = wave.length
    ∧ (0 < wave.length → (computeIntegral wave result).getD 0 none = some 0)
    ∧ (∀ i, 0 < i → i < wave.length →
        (computeIntegral wave result).getD i none
          = jsAdd ((computeIntegral wave result).getD (i - 1) none)
              (wave.getD (i - 1) none))
    ∧ (∀ w2 : List JSNum,
        (computeIntegral w2 (makeArrayOfSameType w2 none)).length = w2.length) := by
  have E := computeIntegral_eq wave result (by omega)
  have hd : result.drop wave.length = [] := List.drop_eq_nil_of_le (by omega)
  rw [hd, List.append_nil] at E
  refine ⟨?_, ?_, ?_, ?_⟩
  · rw [E, jsPrefixSums_length]
  · intro hw
    rw [E, List.getD_eq_getElem?_getD, jsPrefixSums_getElem? wave (some 0) 0 hw]
    simp
  · intro i h0 hi
    have hi1 : i - 1 < wave.length := by omega
    rw [E, List.getD_eq_getElem?_getD, List.getD_eq_getElem?_getD,
      jsPrefixSums_getElem? wave (some 0) i hi,
      jsPrefixSums_getElem? wave (some 0) (i - 1) hi1]
    simp only [Option.getD_some]
    have ht : wave.take i = wave.take (i - 1) ++ [wave.getD (i - 1) none] := by
      rw [show i = (i - 1) + 1 by omega, List.take_succ, List.getElem?_eq_getElem hi1]
      simp [List.getD_eq_getElem?_getD, List.getElem?_eq_getElem hi1]
    rw [ht, List.foldl_append]
    simp
  · intro w2
    rw [computeIntegral_eq w2 _ (by simp [makeArrayOfSameType])]
    simp [jsPrefixSums_length, makeArrayOfSameType]

/-- Witness for C7: the wave [1, 2] with an equal-length zero buffer. -/
theorem C7_witness :
    (computeIntegral [some 1, some 2] [some 0, some 0]).length
        = ([some 1, some 2] : List JSNum).length
    ∧ (computeIntegral [some 1, some 2] [some 0, some 0]).getD 0 none = some 0
    ∧ (computeIntegral [some 1, some 2] [some 0, some 0]).getD 1 none
        = jsAdd ((computeIntegral [some 1, some 2] [some 0, some 0]).getD 0 none)
            (([some 1, some 2] : List JSNum).getD 0 none)
    ∧ (computeIntegral [some 5] (makeArrayOfSameType [some 5] none)).length
        = ([some 5] : List JSNum).length := by
  have h := C7_computeIntegral_spec [some 1, some 2] [some 0, some 0] (by decide)
  exact ⟨h.1, h.2.1 (by decide), by simpa using h.2.2.1 1 (by decide) (by decide),
    h.2.2.2 [some 5]⟩

-- Concrete evaluations of the pipeline on the spec's example inputs.

theorem splitOnNewline_example1 :
    (splitOnNewline (str "1\n-1\n0\n")).map jsStringToNumber
      = [some 1, some (-1), some 0, some 0] := by decide

theorem parseTextSample_example1 :
    parseTextSample (str "1\n-1\n0\n")
      = [some 1, some (-1), some 0, some 0, some 0] := by
  rw [parseTextSample_eq, splitOnNewline_example1]
  norm_num [jsAdd, jsSub, jsDiv]

theorem splitOnNewline_example2 :
    (splitOnNewline (str "1\n1\n")).map jsStringToNumber
      = [some 1, some 1, some 0] := by decide

theorem parseTextSample_example2 :
    parseTextSample (str "1\n1\n")
      = [some (1 / 3), some (1 / 3), some (-(2 / 3)), some 0] := by
  rw [parseTextSample_eq, splitOnNewline_example2]
  norm_num [jsAdd, jsSub, jsDiv]

theorem integral_example1 :
    computeIntegral (parseTextSample (str "1\n-1\n0\n"))
        (makeArrayOfSameType (parseTextSample (str "1\n-1\n0\n")) none)
      = [some 0, some 1, some 0, some 0, some 0] := by
  rw [parseTextSample_example1]
  rw [computeIntegral_eq _ _ (by simp [makeArrayOfSameType])]
  norm_num [jsPrefixSums, jsAdd, makeArrayOfSameType]

theorem integral_example2 :
    computeIntegral (parseTextSample (str "1\n1\n"))
        (makeArrayOfSameType (parseTextSample (str "1\n1\n")) none)
      = [some 0, some (1 / 3), some (2 / 3), some 0] := by
  rw [parseTextSample_example2]
  rw [computeIntegral_eq _ _ (by simp [makeArrayOfSameType])]
  norm_num [jsPrefixSums, jsAdd, makeArrayOfSameType]

-- The integral the claim C1 describes (over the raw pre-centered decoded
-- values) for the input "1\n1\n", whose raw line values are [1, 1, 0].
theorem preIntegral_example2 :
    computeIntegral ((splitOnNewline (str "1\n1\n")).map jsStringToNumber)
        (makeArrayOfSameType ((splitOnNewline (str "1\n1\n")).map jsStringToNumber) none)
      = [some 0, some 1, some 2] := by
  rw [splitOnNewline_example2]
  rw [computeIntegral_eq _ _ (by simp [makeArrayOfSameType])]
  norm_num [jsPrefixSums, jsAdd, makeArrayOfSameType]

-- A successful text-format load writes the parser output to the raw target
-- and the integral of that (already centered) output to the integral target.
theorem startLoading_txt_success (txtBody : List Char) (d : Option (List JSNum))
    (r0 i0 : SampleTarget) :
    startLoadingSampleData (str "txt") true txtBody d (some r0) (some i0)
      = (some ⟨some (parseTextSample txtBody)⟩,
         some ⟨some (computeIntegral (parseTextSample txtBody)
            (makeArrayOfSameType (parseTextSample txtBody) none))⟩, 0) := rfl

/-- C3 (corrected statement): the text parser's output length is the line
count plus one, because the centered line values are written into a buffer
with one extra zero-initialized reserved slot; "1\n-1\n0\n" splits into the
four lines "1", "-1", "0", "" and decodes to the centered values [1,-1,0,0]
followed by the trailing reserved zero slot. -/
theorem C3_parseTextSample_amended (data : List Char) :
    (parseTextSample data).length = (splitOnNewline data).length + 1
    ∧ parseTextSample (str "1\n-1\n0\n")
        = [some 1, some (-1), some 0, some 0, some 0] := by
  constructor
  · rw [parseTextSample_eq]
    simp
  · exact parseTextSample_example1

/-- C3 counterexample: for the text sample "1\n-1\n0\n" the parser output
has length 5 while the input splits into 4 newline-delimited lines, and the
output is [1,-1,0,0,0] rather than [1,-1,0] plus one reserved slot. -/
theorem C3_counterexample :
    (parseTextSample (str "1\n-1\n0\n")).length
        ≠ (splitOnNewline (str "1\n-1\n0\n")).length
    ∧ parseTextSample (str "1\n-1\n0\n")
        = [some 1, some (-1), some 0, some 0, some 0]
    ∧ (splitOnNewline (str "1\n-1\n0\n")).length = 4
    ∧ parseTextSample (str "1\n-1\n0\n") ≠ [some 1, some (-1), some 0, some 0] := by
  refine ⟨?_, parseTextSample_example1, by decide, ?_⟩
  · rw [parseTextSample_example1]
    decide
  · rw [parseTextSample_example1]
    intro h
    exact absurd (congrArg List.length h) (by decide)

/-- C1 (corrected statement): for every successful load — text or generic
format, i.e. whenever the parser stage resolves with a waveform p — with
both targets supplied, the pipeline stores the parser output p (the
centered waveform) in the raw target and writes to the integral target the
running prefix sum of that same CENTERED array (trailing reserved slot
included), not of the pre-centered raw decoded values; for the text sample
"1\n-1\n0\n" the integral equals [0,1,0,0,0]. -/
theorem C1_integral_amended (format txtBody : List Char)
    (d : Option (List JSNum)) (r0 i0 : SampleTarget) (p : List JSNum)
    (hp : (if format = str "txt" then some (parseTextSample txtBody)
        else (parseSampleWithWebAudio d).1) = some p) :
    startLoadingSampleData format true txtBody d (some r0) (some i0)
      = (some ⟨some p⟩,
         some ⟨some (computeIntegral p (makeArrayOfSameType p none))⟩, 0)
    ∧ (∀ i, i < p.length →
        (computeIntegral p (makeArrayOfSameType p none)).getD i none
          = (p.take i).foldl jsAdd (some 0))
    ∧ (startLoadingSampleData (str "txt") true (str "1\n-1\n0\n") none
        (some ⟨some []⟩) (some ⟨some []⟩)).2.1
        = some ⟨some [some 0, some 1, some 0, some 0, some 0]⟩ := by
  refine ⟨?_, ?_, ?_⟩
  · unfold startLoadingSampleData
    rw [if_neg (by simp), hp]
  · intro i hi
    rw [computeIntegral_eq _ _ (by simp [makeArrayOfSameType])]
    rw [List.getD_eq_getElem?_getD,
      List.getElem?_append_left (by rw [jsPrefixSums_length]; exact hi),
      jsPrefixSums_getElem? _ (some 0) i hi]
    rfl
  · rw [startLoading_txt_success, integral_example1]

/-- Witness for C1 (amended): a generic-format ("wav") load whose decode
succeeds with channel data [1,1]; the centered parser output is [0,0,0]
and the integral written is its running prefix sums. -/
theorem C1_witness :
    (if str "wav" = str "txt" then some (parseTextSample (str "1\n-1\n0\n"))
        else (parseSampleWithWebAudio (some [some 1, some 1])).1)
      = some [(some 0 : JSNum), some 0, some 0]
    ∧ startLoadingSampleData (str "wav") true (str "1\n-1\n0\n")
        (some [some 1, some 1]) (some ⟨some []⟩) (some ⟨some []⟩)
      = (some ⟨some [some 0, some 0, some 0]⟩,
         some ⟨some (computeIntegral [some 0, some 0, some 0]
            (makeArrayOfSameType [some 0, some 0, some 0] none))⟩, 0)
    ∧ (computeIntegral [some 0, some 0, some 0]
          (makeArrayOfSameType [some 0, some 0, some 0] none)).getD 1 none
        = (([some 0, some 0, some 0] : List JSNum).take 1).foldl jsAdd (some 0)
    ∧ (startLoadingSampleData (str "txt") true (str "1\n-1\n0\n") none
        (some ⟨some []⟩) (some ⟨some []⟩)).2.1
        = some ⟨some [some 0, some 1, some 0, some 0, some 0]⟩ := by
  have hp : (if str "wav" = str "txt" then some (parseTextSample (str "1\n-1\n0\n"))
      else (parseSampleWithWebAudio (some [some 1, some 1])).1)
      = some [(some 0 : JSNum), some 0, some 0] := by
    rw [if_neg (by decide)]
    show some (computeCenteredWave [some 1, some 1]
      (makeArrayOfSameType [some 1, some 1] (some 3))) = _
    rw [computeCenteredWave_eq _ _ (by simp [makeArrayOfSameType])]
    norm_num [jsAdd, jsSub, jsDiv, makeArrayOfSameType]
  have h := C1_integral_amended (str "wav") (str "1\n-1\n0\n")
    (some [some 1, some 1]) ⟨some []⟩ ⟨some []⟩ [some 0, some 0, some 0] hp
  exact ⟨hp, h.1, h.2.1 1 (by decide), h.2.2⟩

/-- C1 counterexample: for "1\n-1\n0\n" the integral actually written is
[0,1,0,0,0], not [0,1,0]; and for "1\n1\n" (raw decoded values [1,1,0],
whose prefix sums are [0,1,2]) the integral actually written is
[0,1/3,2/3,0], which differs from the prefix sums of the pre-centered
values already at index 1 — the integral is taken over the centered data. -/
theorem C1_counterexample :
    (startLoadingSampleData (str "txt") true (str "1\n-1\n0\n") none
        (some ⟨some []⟩) (some ⟨some []⟩)).2.1
      ≠ some ⟨some [some 0, some 1, some 0]⟩
    ∧ (startLoadingSampleData (str "txt") true (str "1\n1\n") none
        (some ⟨some []⟩) (some ⟨some []⟩)).2.1
      = some ⟨some [some 0, some (1 / 3), some (2 / 3), some 0]⟩
    ∧ computeIntegral ((splitOnNewline (str "1\n1\n")).map jsStringToNumber)
        (makeArrayOfSameType ((splitOnNewline (str "1\n1\n")).map jsStringToNumber) none)
      = [some 0, some 1, some 2]
    ∧ (some ((1 : ℚ) / 3) : JSNum) ≠ some 1 := by
  refine ⟨?_, ?_, preIntegral_example2, by norm_num⟩
  · rw [startLoading_txt_success, integral_example1]
    intro h
    have h2 := congrArg (fun x => (x.map SampleTarget.samples).map
      (fun y => y.map List.length)) h
    simp at h2
  · rw [startLoading_txt_success, integral_example2]

/-- C2 evaluation at the failing input (the claim is correct and the code
has a bug): a generic-format load whose fetch succeeds but whose audio
decoding fails overwrites rawTarget.samples with the JS undefined value
(because the decode failure is swallowed and the pipeline continues with
undefined) while the integral target keeps its old value and one TypeError
diagnostic is logged; with no targets supplied the same failure logs
nothing at all.  A fetch failure, by contrast, behaves as the claim says. -/
theorem C2_code_divergence :
    startLoadingSampleData (str "wav") true [] none
        (some ⟨some [some 1]⟩) (some ⟨some [some 2]⟩)
      = (some ⟨none⟩, some ⟨some [some 2]⟩, 1)
    ∧ (startLoadingSampleData (str "wav") true [] none
        (some ⟨some [some 1]⟩) (some ⟨some [some 2]⟩)).1 ≠ some ⟨some [some 1]⟩
    ∧ (startLoadingSampleData (str "wav") true [] none none none).2.2 = 0
    ∧ startLoadingSampleData (str "wav") false [] none
        (some ⟨some [some 1]⟩) (some ⟨some [some 2]⟩)
      = (some ⟨some [some 1]⟩, some ⟨some [some 2]⟩, 1) := by
  refine ⟨rfl, ?_, rfl, rfl⟩
  intro h
  rw [show (startLoadingSampleData (str "wav") true [] none
      (some ⟨some [some 1]⟩) (some ⟨some [some 2]⟩)).1 = some ⟨none⟩ from rfl] at h
  simp at h

/-- C8: within one generic-format parse attempt, the sample-loader
AudioContext is closed exactly once, whether decoding succeeds or fails
(the guard flag makes the release idempotent and each path releases). -/
theorem C8_close_exactly_once (decodeResult : Option (List JSNum)) :
    (parseSampleWithWebAudio decodeResult).2 = 1 := by
  cases decodeResult <;> rfl

/-- C4: for every configuration and sample name without an override-table
entry, the locator returns prefix ++ folder ++ percentEncode(name) ++ suffix
with the configured default format, where the folder is the folder prefix of
the first folder-mapping entry whose pattern matches the raw name
case-insensitively, or empty when none matches; the function is a total
(pure, synchronous, never-failing) function. -/
theorem C4_locator_default (cfg : SampleUrlConfig) (name : List Char)
    (h : lookupTable cfg.urlTable name = none) :
    getSampleDefinitionFromName cfg name
      = (cfg.urlPre ++ folderSpec cfg.folderMappings name
          ++ encodeURIComponent name ++ cfg.urlSuf, cfg.fmt) := by
  unfold getSampleDefinitionFromName
  rw [h, folderLoop_eq_folderSpec]

/-- Witness for C4: the name "Hihat" has no override entry in the source's
(empty) table; its first character matches the "GH/" folder pattern, giving
the expected URL under the default configuration. -/
theorem C4_witness :
    lookupTable defaultConfig.urlTable (str "Hihat") = none
    ∧ getSampleDefinitionFromName defaultConfig (str "Hihat")
        = (defaultConfig.urlPre ++ folderSpec defaultConfig.folderMappings (str "Hihat")
            ++ encodeURIComponent (str "Hihat") ++ defaultConfig.urlSuf,
           defaultConfig.fmt)
    ∧ getSampleDefinitionFromName defaultConfig (str "Hihat")
        = (str "https://file.garden/ZMQ0Om5nmTe-x2hq/PandoraArchive%20Samples/GH/Hihat.wav",
           str "wav") :=
  ⟨by decide, C4_locator_default defaultConfig (str "Hihat") (by decide), by decide⟩

/-- C5: for every configuration and sample name with an override-table
entry, the locator returns exactly that entry's URL and format, verbatim,
independently of the folder mappings and without percent-encoding. -/
theorem C5_locator_override (cfg : SampleUrlConfig) (name : List Char)
    (entry : List Char × List Char)
    (h : lookupTable cfg.urlTable name = some entry) :
    getSampleDefinitionFromName cfg name = entry := by
  unfold getSampleDefinitionFromName
  rw [h]

/-- Witness for C5: a configuration whose override table carries the
commented-out example entry of the source returns that entry verbatim for
"Hihat", even though the folder mappings would otherwise apply. -/
theorem C5_witness :
    lookupTable ({ defaultConfig with urlTable :=
        [(str "Hihat", (str "https://example.com/file.wav", str "wav"))] }
          : SampleUrlConfig).urlTable (str "Hihat")
      = some (str "https://example.com/file.wav", str "wav")
    ∧ getSampleDefinitionFromName
        { defaultConfig with urlTable :=
          [(str "Hihat", (str "https://example.com/file.wav", str "wav"))] }
        (str "Hihat")
      = (str "https://example.com/file.wav", str "wav") :=
  ⟨by decide, C5_locator_override _ _ _ (by decide)⟩

/-- C10: a blank line in a text-format input (including the empty final
line produced by a trailing newline) parses to the number 0, not NaN: the
empty string converts to 0, so the sample value at a blank line's index is
0, and appending a trailing newline appends exactly one extra pre-centering
sample of value 0. -/
theorem C10_blank_line_zero (data : List Char) (i : ℕ)
    (h : (splitOnNewline data).getD i [' '] = []) :
    jsStringToNumber [] = some 0
    ∧ ((splitOnNewline data).map jsStringToNumber).getD i none = some 0
    ∧ (∀ s : List Char,
        (splitOnNewline (s ++ ['\n'])).map jsStringToNumber
          = (splitOnNewline s).map jsStringToNumber ++ [some 0]) := by
  have hlt : i < (splitOnNewline data).length := by
    by_contra hge
    rw [List.getD_eq_getElem?_getD, List.getElem?_eq_none (by omega)] at h
    simp at h
  have hblank : (splitOnNewline data)[i] = [] := by
    rw [List.getD_eq_getElem?_getD, List.getElem?_eq_getElem hlt] at h
    simpa using h
  refine ⟨rfl, ?_, ?_⟩
  · rw [List.getD_eq_getElem?_getD, List.getElem?_map,
      List.getElem?_eq_getElem hlt, hblank]
    rfl
  · intro s
    rw [splitOnNewline_append_newline, List.map_append]
    rfl

/-- Witness for C10: in "1\n\n2" the line at index 1 is blank and parses
to 0, and appending a newline to "ab" appends one extra 0 sample. -/
theorem C10_witness :
    (splitOnNewline (str "1\n\n2")).getD 1 [' '] = []
    ∧ jsStringToNumber [] = some 0
    ∧ ((splitOnNewline (str "1\n\n2")).map jsStringToNumber).getD 1 none = some 0
    ∧ (splitOnNewline (str "ab" ++ ['\n'])).map jsStringToNumber
        = (splitOnNewline (str "ab")).map jsStringToNumber ++ [some 0] := by
  have h := C10_blank_line_zero (str "1\n\n2") 1 (by decide)
  exact ⟨by decide, h.1, h.2.1, h.2.2 (str "ab")⟩

/-- C9: after setItem(k, v), an immediate getItem(k) returns v — setItem
updates the in-memory mirror synchronously and getItem reads only that
mirror, so the result is visible before any write-through to the persistent
store completes; and after a failed database open at initialization the
shim keeps no database handle, yet getItem/setItem/removeItem/clear all
still operate correctly on the in-memory mirror alone. -/
theorem C9_storage_shim (s : FakeLocalStorage) (k v : List Char)
    (persisted : List (List Char × List Char)) :
    (s.setItem k v).getItem k = some v
    ∧ (FakeLocalStorage.startup false persisted)._database = none
    ∧ ((FakeLocalStorage.startup false persisted).setItem k v).getItem k = some v
    ∧ ((FakeLocalStorage.startup false persisted).setItem k v)._database = none
    ∧ (((FakeLocalStorage.startup false persisted).setItem k v).removeItem k).getItem k
        = none
    ∧ ((FakeLocalStorage.startup false persisted).clear)._inMemoryData = [] := by
  refine ⟨?_, rfl, ?_, rfl, ?_, rfl⟩
  · exact mapGet_mapSet_self s._inMemoryData k v
  · exact mapGet_mapSet_self [] k v
  · show mapGet (mapDelete (mapSet [] k v) k) k = none
    simp [mapSet, mapDelete, mapGet]
